import Mathlib

/-
  Verification development for the wspm_apiIA sports-odds projection service.

  The projection engine of the repository is embedded shallowly:
  Python floats are modelled as exact rationals (ℚ) — all engine arithmetic
  is +, -, *, /, abs, max, min — except for the soccer Poisson outcome
  engine, which uses math.exp and is therefore modelled over the reals (ℝ)
  with Real.exp.  Fallible paths are modelled with Option.  Provider JSON
  payloads are modelled by structures carrying exactly the fields the
  engine reads; stat values are the strings the code passes to
  float(str(raw)).
-/

/- ===================================================================
   String helpers: models of the Python string operations used by the
   engine (str.replace, str.split, str.lower, str.endswith, int(), float()),
   implemented by structural recursion over character lists so that all
   concrete evaluations reduce in the kernel.

   int() and float() are modelled on plain decimal literals (optional
   sign, digits, optional fractional part), which covers every numeric
   string the provider sends for the statistics involved; on any other
   string they return none, matching the ValueError branches.
   =================================================================== -/

/-- Numeric value of a digit string (empty list gives 0); only applied to
all-digit lists. -/
def digitsVal (cs : List Char) : ℕ :=
  cs.foldl (fun acc c => 10 * acc + (c.toNat - 48)) 0

/-- Parse a nonempty all-digit character list; none otherwise.  Models the
success/failure of Python int() on an unsigned literal. -/
def parseNat? (cs : List Char) : Option ℕ :=
  if cs.isEmpty then none
  else if cs.all Char.isDigit then some (digitsVal cs) else none

/-- Model of Python int() on a decimal literal with optional sign. -/
def parseInt? (cs : List Char) : Option ℤ :=
  match cs with
  | '-' :: rest => (parseNat? rest).map (fun n => -(n : ℤ))
  | '+' :: rest => (parseNat? rest).map (fun n => (n : ℤ))
  | _ => (parseNat? cs).map (fun n => (n : ℤ))

/-- Unsigned part of the float() model: digits, optionally followed by a
point and further digits ("12", "12.", "12.5", ".5"); at least one digit
overall. -/
def parseUnsignedFloat? (cs : List Char) : Option ℚ :=
  let intPart := cs.takeWhile Char.isDigit
  let rest := cs.drop intPart.length
  match rest with
  | [] => if intPart.isEmpty then none else some (digitsVal intPart : ℚ)
  | '.' :: frac =>
      if frac.all Char.isDigit && !(intPart.isEmpty && frac.isEmpty) then
        some ((digitsVal intPart : ℚ) + (digitsVal frac : ℚ) / 10 ^ frac.length)
      else none
  | _ => none

/-- Model of Python float() on a plain decimal literal with optional sign. -/
def parseFloat? (cs : List Char) : Option ℚ :=
  match cs with
  | '-' :: rest => (parseUnsignedFloat? rest).map (fun q => -q)
  | '+' :: rest => parseUnsignedFloat? rest
  | _ => parseUnsignedFloat? cs

/-- Model of float(str(raw).replace(",", "")): strip thousands separators,
then parse. -/
def parseStat? (raw : String) : Option ℚ :=
  parseFloat? (raw.data.filter (fun c => c ≠ ','))

/-- Model of str.split(sep) for a single-character separator: Python's
"".split("-") is [""], so the empty list of characters yields [[]]. -/
def splitOnChar (sep : Char) : List Char → List (List Char)
  | [] => [[]]
  | c :: rest =>
      let r := splitOnChar sep rest
      if c = sep then [] :: r
      else
        match r with
        | [] => [[c]]
        | h :: t => (c :: h) :: t

/-- Model of str.lower() (ASCII, which is all the engine compares). -/
def lowerStr (s : String) : String := String.mk (s.data.map Char.toLower)

/-- Model of str.endswith(pat). -/
def strEndsWith (s pat : String) : Bool := pat.data.isSuffixOf s.data

/-- Model of the Python substring test (pat in s). -/
def listIsInfix (pat : List Char) : List Char → Bool
  | [] => pat.isEmpty
  | c :: t => pat.isPrefixOf (c :: t) || listIsInfix pat t

/- ===================================================================
   Linear Adjustment & Edge Model — manual endpoint
   (src/app/api/v1/routes_nfl.py, wspm_projection, lines 149-218).
   =================================================================== -/

/-- Numeric and textual fields of WSPMOutput that the endpoint computes
(the echoed request fields are omitted). -/
structure WSPMOutputCore where
  net_adjust : ℚ
  wspm_projection : ℚ
  edge : ℚ
  margin_pct : ℚ
  safety_margin_value : ℚ
  safety_margin_pct : ℚ
  prob_cover : ℚ
  direction : String
  confidence : String
deriving Repr, DecidableEq

/-- Numeric fields of WSPMInput (schemas/nfl.py) that enter the
computation. -/
structure WSPMInputCore where
  book_line : ℚ
  base_projection : ℚ
  adj_matchup : ℚ
  adj_volume : ℚ
  adj_risk : ℚ
  adj_tempo : ℚ
  model_projection : Option ℚ
deriving Repr, DecidableEq

/-- Probability-of-cover step function on the absolute margin percentage,
as written inline in wspm_projection (routes_nfl.py lines 173-183). -/
def prob_cover_of_margin (abs_m : ℚ) : ℚ :=
  if abs_m < 2 then 52.0
  else if abs_m < 5 then 55.0
  else if abs_m < 10 then 60.0
  else if abs_m < 15 then 65.0
  else 70.0

/-- Confidence tier step function on the absolute margin percentage, as
written inline in wspm_projection (routes_nfl.py lines 187-194).  The
code renders the tiers in Spanish: Baja = Low, Media = Medium,
Media-Alta = Medium-High, Alta = High. -/
def confidence_of_margin (p : ℚ) : String :=
  if p ≥ 15 then "Alta"
  else if p ≥ 10 then "Media-Alta"
  else if p ≥ 5 then "Media"
  else "Baja"

/-- The manual projection endpoint wspm_projection
(routes_nfl.py lines 149-218): computes the full output for every input,
with no validation of base_projection. -/
def wspm_projection_route (input_data : WSPMInputCore) : WSPMOutputCore :=
  let net_adjust := input_data.adj_matchup + input_data.adj_volume
      + input_data.adj_risk + input_data.adj_tempo
  let wspm_projection :=
    match input_data.model_projection with
    | some m => m
    | none => input_data.base_projection + net_adjust
  let edge := wspm_projection - input_data.book_line
  let margin_pct :=
    if input_data.book_line ≠ 0 then (edge / |input_data.book_line|) * 100.0
    else 0.0
  let safety_margin_value := |edge|
  let safety_margin_pct := |margin_pct|
  let prob_cover := prob_cover_of_margin safety_margin_pct
  let direction := if edge > 0 then "OVER" else "UNDER"
  let confidence := confidence_of_margin safety_margin_pct
  { net_adjust := net_adjust
    wspm_projection := wspm_projection
    edge := edge
    margin_pct := margin_pct
    safety_margin_value := safety_margin_value
    safety_margin_pct := safety_margin_pct
    prob_cover := prob_cover
    direction := direction
    confidence := confidence }

/-- Tempo adjustment from the game total
(routes_nfl.py lines 274-279): game_total ≥ 50 gives +3.0, ≥ 46 gives
+1.0, else (or absent) 0. -/
def adj_tempo_from_game_total (game_total : Option ℚ) : ℚ :=
  match game_total with
  | some gt => if gt ≥ 50 then 3.0 else if gt ≥ 46 then 1.0 else 0.0
  | none => 0.0

/-- The auto projection path (routes_nfl.py lines 257-343, shared with the
report variant at lines 384-444) after the base projection has been
computed from the gamelog: refuses with HTTP 422 when
base_projection ≤ 0 (modelled as none); otherwise evaluates the same
pipeline as the manual endpoint with adj_matchup = adj_volume =
adj_risk = 0 and the tempo adjustment from the game total. -/
def wspm_auto_projection_route (base_projection : ℚ) (game_total : Option ℚ)
    (book_line : ℚ) : Option WSPMOutputCore :=
  if base_projection ≤ 0 then none
  else
    some (wspm_projection_route
      { book_line := book_line
        base_projection := base_projection
        adj_matchup := 0.0
        adj_volume := 0.0
        adj_risk := 0.0
        adj_tempo := adj_tempo_from_game_total game_total
        model_projection := none })

/- ===================================================================
   NFL game projection (src/app/services/nfl_game_projection.py).
   The network-facing _collect_recent_team_points supplies the four
   recent-points averages; compute_game_projection_core embeds the pure
   computation of compute_game_projection from line 140 on, taking those
   averages as inputs.
   =================================================================== -/

/-- Confidence tier helper _conf nested in compute_game_projection
(nfl_game_projection.py lines 179-187). -/
def _conf (pct : ℚ) : String :=
  if pct ≥ 15 then "Alta"
  else if pct ≥ 10 then "Media-Alta"
  else if pct ≥ 5 then "Media"
  else "Baja"

/-- Probability helper _prob_from_safety nested in compute_game_projection
(nfl_game_projection.py lines 190-200). -/
def _prob_from_safety (pct : ℚ) : ℚ :=
  if pct ≥ 15 then 70.0
  else if pct ≥ 10 then 65.0
  else if pct ≥ 5 then 60.0
  else if pct ≥ 2 then 55.0
  else 52.0

/-- Output record of compute_game_projection (the identification fields
event_id/matchup/teams and echoed inputs are omitted). -/
structure GameProjectionCore where
  implied_home_total : ℚ
  implied_away_total : ℚ
  model_home_total : ℚ
  model_away_total : ℚ
  model_total : ℚ
  model_spread : ℚ
  edge_total : ℚ
  edge_spread : ℚ
  margin_total_pct : ℚ
  margin_spread_pct : ℚ
  safety_total : ℚ
  safety_total_pct : ℚ
  safety_spread : ℚ
  safety_spread_pct : ℚ
  prob_total : ℚ
  prob_spread : ℚ
  direction_total : String
  side_spread : String
  confidence_total : String
  confidence_spread : String
deriving Repr, DecidableEq

/-- Pure core of compute_game_projection
(nfl_game_projection.py lines 140-238), taking the recent points
for/against averages of both teams as returned by
_collect_recent_team_points. -/
def compute_game_projection_core (home_pf home_pa away_pf away_pa
    book_total book_spread : ℚ) : GameProjectionCore :=
  let home_proj :=
    if home_pf = 0.0 ∧ away_pf = 0.0 then (book_total + book_spread) / 2.0
    else if away_pa > 0 then (home_pf + away_pa) / 2.0 else home_pf
  let away_proj :=
    if home_pf = 0.0 ∧ away_pf = 0.0 then (book_total - book_spread) / 2.0
    else if home_pa > 0 then (away_pf + home_pa) / 2.0 else away_pf
  let model_total :=
    if home_pf = 0.0 ∧ away_pf = 0.0 then book_total
    else home_proj + away_proj
  let model_spread :=
    if home_pf = 0.0 ∧ away_pf = 0.0 then book_spread
    else home_proj - away_proj
  let implied_home := (book_total + book_spread) / 2.0
  let implied_away := (book_total - book_spread) / 2.0
  let edge_total := model_total - book_total
  let edge_spread := model_spread - book_spread
  let margin_total_pct :=
    if book_total ≠ 0 then (edge_total / |book_total|) * 100.0 else 0.0
  let margin_spread_pct :=
    if book_spread ≠ 0 then (edge_spread / |book_spread|) * 100.0
    else if edge_spread ≠ 0 then (edge_spread / 3.0) * 100.0 else 0.0
  let safety_total := |edge_total|
  let safety_total_pct := |margin_total_pct|
  let safety_spread := |edge_spread|
  let safety_spread_pct := |margin_spread_pct|
  { implied_home_total := implied_home
    implied_away_total := implied_away
    model_home_total := home_proj
    model_away_total := away_proj
    model_total := model_total
    model_spread := model_spread
    edge_total := edge_total
    edge_spread := edge_spread
    margin_total_pct := margin_total_pct
    margin_spread_pct := margin_spread_pct
    safety_total := safety_total
    safety_total_pct := safety_total_pct
    safety_spread := safety_spread
    safety_spread_pct := safety_spread_pct
    prob_total := _prob_from_safety safety_total_pct
    prob_spread := _prob_from_safety safety_spread_pct
    direction_total := if edge_total > 0 then "OVER" else "UNDER"
    side_spread := if model_spread > book_spread then "HOME" else "AWAY"
    confidence_total := _conf safety_total_pct
    confidence_spread := _conf safety_spread_pct }

/- ===================================================================
   Provider gamelog payload (indexed format) and the Stat-Series
   Extractor (src/app/services/wspm_nba_engine.py and
   src/app/services/wspm_nfl_engine.py).
   =================================================================== -/

/-- One game of an indexed gamelog: event["stats"] is the parallel array
of raw values (strings, as the code feeds them to float(str(raw))). -/
structure GameEvent where
  stats : List String
deriving Repr, DecidableEq

/-- One entry of seasonType["categories"]; only its "events" list is
read (a missing or non-list "events" behaves as the empty list). -/
structure SeasonCategory where
  events : List GameEvent
deriving Repr, DecidableEq

/-- One season segment of the gamelog. -/
structure SeasonSegment where
  splitType : Option String
  displayName : Option String
  categories : List SeasonCategory
deriving Repr, DecidableEq

/-- Indexed gamelog payload: names is the statistic-name list, each
event's stats array is indexed against it. -/
structure Gamelog where
  names : List String
  seasonTypes : List SeasonSegment
deriving Repr, DecidableEq

/-- Discriminator for the regular-season segment, as written identically
in both extractors: splitType == "2" or displayName ends in
"Regular Season". -/
def isRegularSegment (st : SeasonSegment) : Bool :=
  st.splitType == some "2" || strEndsWith (st.displayName.getD "") "Regular Season"

/-- All events of one segment, concatenated over its categories. -/
def segmentEvents (st : SeasonSegment) : List GameEvent :=
  (st.categories.map SeasonCategory.events).flatten

/-- Events of every segment merged, in order (the fallback of the NBA
extractor). -/
def mergeAllSegments (gamelog : Gamelog) : List GameEvent :=
  (gamelog.seasonTypes.map segmentEvents).flatten

/-- NBA extractor _extract_regular_season_events
(wspm_nba_engine.py lines 24-42): the first regular-season segment's
events, or — when no segment matches — the events of all segments
merged. -/
def _extract_regular_season_events (gamelog : Gamelog) : List GameEvent :=
  match gamelog.seasonTypes.find? isRegularSegment with
  | some st => segmentEvents st
  | none => mergeAllSegments gamelog

/-- NFL extractor _get_regular_season_events_from_indexed_gamelog
(wspm_nfl_engine.py lines 59-102): the first regular-season segment's
events, and the empty list when no segment matches (no merge
fallback). -/
def _get_regular_season_events_from_indexed_gamelog (gamelog : Gamelog) :
    List GameEvent :=
  match gamelog.seasonTypes.find? isRegularSegment with
  | some st => segmentEvents st
  | none => []

/-- Alias resolution _find_stat_index (wspm_nba_engine.py lines 4-21):
exact case-insensitive match over the aliases in order, then the first
name containing any alias as a substring. -/
def _find_stat_index (names aliases : List String) : Option ℕ :=
  let lowered := names.map lowerStr
  match aliases.findSome? (fun a => lowered.indexOf? (lowerStr a)) with
  | some i => some i
  | none =>
      lowered.findIdx? (fun n => aliases.any (fun a => listIsInfix (lowerStr a).data n.data))

/-- Value-collection loop shared verbatim by
compute_base_projection_from_gamelog in wspm_nfl_engine.py
(lines 177-199) and wspm_nba_engine.py (lines 93-108): walk the
most-recent-first events, skip an event whose stats array is too short
or whose raw value fails to parse, and stop as soon as games_window
values are collected.  Each list entry is the event's raw value at the
stat index, already passed through the parse
(none = short array or parse failure). -/
def collectValues (raws : List (Option ℚ)) (games_window : ℕ) : List ℚ :=
  match raws with
  | [] => []
  | none :: rest => collectValues rest games_window
  | some v :: rest =>
      if games_window ≤ 1 then [v]
      else v :: collectValues rest (games_window - 1)

/-- Raw value of one event at the stat index, as both engines read it:
stats[stat_idx] parsed with float(str(raw).replace(",", "")), none when
the array is too short or the parse fails. -/
def eventStat? (stat_idx : ℕ) (ev : GameEvent) : Option ℚ :=
  (ev.stats.get? stat_idx).bind parseStat?

/-- Windowed-mean tail of both compute_base_projection_from_gamelog
functions: mean of the collected values, 0.0 when nothing was
collected. -/
def projectValues (raws : List (Option ℚ)) (games_window : ℕ) : ℚ :=
  let values := collectValues raws games_window
  if values.isEmpty then 0.0
  else values.sum / (values.length : ℚ)

/-- Market-to-alias table of the NBA engine
(wspm_nba_engine.py lines 65-76); the same table is ALIASES in
wspm_nba_streaks.py lines 16-27. -/
def nba_market_aliases (market_type : String) : Option (List String) :=
  if market_type = "points" then some ["points", "pts"]
  else if market_type = "rebounds" then some ["rebounds", "reb", "totalRebounds"]
  else if market_type = "assists" then some ["assists", "ast"]
  else if market_type = "threes_made" then
    some ["threePointFieldGoalsMade", "threePointFGM", "3ptFieldGoalsMade",
          "3ptfgm", "fg3m"]
  else none

/-- NBA compute_base_projection_from_gamelog
(wspm_nba_engine.py lines 45-113). -/
def compute_base_projection_nba (gamelog : Gamelog) (market_type : String)
    (games_window : ℕ) : ℚ :=
  match nba_market_aliases market_type with
  | none => 0.0
  | some aliases =>
      match _find_stat_index gamelog.names aliases with
      | none => 0.0
      | some stat_idx =>
          let events := _extract_regular_season_events gamelog
          if events.isEmpty then 0.0
          else
            let recent_events := events.reverse
            projectValues (recent_events.map (eventStat? stat_idx)) games_window

/- ===================================================================
   Streak Detector (src/app/services/wspm_nba_streaks.py).
   =================================================================== -/

/-- Stat-series extraction for the streak detector, _extract_stat_series
(wspm_nba_streaks.py lines 44-69).  Unlike the base-projection loops,
an in-range raw value that fails to parse is appended as 0.0 rather
than skipped; only a too-short stats array contributes nothing. -/
def _extract_stat_series (gamelog : Gamelog) (aliases : List String) : List ℚ :=
  match _find_stat_index gamelog.names aliases with
  | none => []
  | some idx =>
      let events := _extract_regular_season_events gamelog
      if events.isEmpty then []
      else
        (events.reverse).filterMap (fun ev =>
          (ev.stats.get? idx).map (fun raw => (parseStat? raw).getD 0.0))

/-- Consecutive-run counter _compute_streak
(wspm_nba_streaks.py lines 30-41): counts most-recent-first values
meeting the threshold, stopping at the first value below it. -/
def _compute_streak (values : List ℚ) (threshold : ℚ) : ℕ :=
  match values with
  | [] => 0
  | v :: rest =>
      if v ≥ threshold then _compute_streak rest threshold + 1 else 0

/-- Threshold-ladder scan from build_streaks_for_date
(wspm_nba_streaks.py lines 159-171): try the thresholds in order and
report the first whose streak length reaches min_len (the code
instantiates min_len at 5). -/
def streakLadder (thresholds : List ℚ) (series : List ℚ) (min_len : ℕ) :
    Option (ℚ × ℕ) :=
  match thresholds with
  | [] => none
  | th :: rest =>
      let streak_len := _compute_streak series th
      if streak_len ≥ min_len then some (th, streak_len)
      else streakLadder rest series min_len

/- ===================================================================
   Soccer: record parsing and Bayesian goal-rate model
   (src/app/api/v1/routes_soccer.py).
   =================================================================== -/

/-- One entry of a competitor's "records" list; type and summary may be
absent or null, displayValue is read only by the soccer form score. -/
structure RecordEntry where
  type : Option String
  summary : Option String
  displayValue : Option String
deriving Repr, DecidableEq

/-- A competitor as read by the soccer engine: only its records list. -/
structure Competitor where
  records : List RecordEntry
deriving Repr, DecidableEq

/-- Parsed record data returned by _extract_record_data. -/
structure RecordData where
  w : ℤ
  d : ℤ
  l : ℤ
  games : ℤ
  ppg : ℚ
deriving Repr, DecidableEq

/-- Neutral default of _extract_record_data: no data, league-average
strength 0.5. -/
def defaultRecordData : RecordData :=
  { w := 0, d := 0, l := 0, games := 0, ppg := 0.5 }

/-- Record filter of _extract_record_data
(routes_soccer.py lines 102-107): the summary of the first record whose
(lowercased, defaulted) type is total/league/overall/empty and whose
summary is a nonempty string. -/
def pickRecordSummary (records : List RecordEntry) : Option String :=
  records.findSome? (fun r =>
    let r_type := lowerStr (r.type.getD "")
    if r_type = "total" || r_type = "league" || r_type = "overall" || r_type = ""
    then
      match r.summary with
      | some s => if s = "" then none else some s
      | none => none
    else none)

/-- Record parser _extract_record_data (routes_soccer.py lines 94-129):
"W-L[-D]" summary to wins/draws/losses, games, and the clamped
points-per-game strength; any parse failure or zero games yields the
neutral default. -/
def _extract_record_data (competitor : Competitor) : RecordData :=
  match pickRecordSummary competitor.records with
  | none => defaultRecordData
  | some summary_str =>
      let parts := splitOnChar '-' (summary_str.data.filter (fun c => c ≠ ' '))
      if parts.length < 2 then defaultRecordData
      else
        match parseInt? (parts.getD 0 []), parseInt? (parts.getD 1 []),
              (if parts.length ≥ 3 then parseInt? (parts.getD 2 []) else some 0) with
        | some w, some l, some d =>
            let games := w + l + d
            if games ≤ 0 then defaultRecordData
            else
              let pts := 3 * w + d
              let ppg : ℚ := (pts : ℚ) / (3.0 * (games : ℚ))
              let ppg := max 0.2 (min 0.95 ppg)
              { w := w, d := d, l := l, games := games, ppg := ppg }
        | _, _, _ => defaultRecordData

/-- Bayesian goal-rate model _compute_bayesian_lambdas
(routes_soccer.py lines 144-219): blended league/market prior, 55/45
home split, record-based strengths, fixed home-field terms, shrinkage
with a pseudo-count of 5 games, and a final clamp to [0.2, 3.8].
Returns (lambda_home, lambda_away). -/
def _compute_bayesian_lambdas (book_over_under : Option ℚ)
    (home_comp away_comp : Competitor) : ℚ × ℚ :=
  let league_total_prior : ℚ := 2.6
  let total_prior :=
    match book_over_under with
    | some b => if b > 0 then 0.7 * b + 0.3 * league_total_prior
                else league_total_prior
    | none => league_total_prior
  let prior_lambda_home := total_prior * 0.55
  let prior_lambda_away := total_prior * 0.45
  let home_stats := _extract_record_data home_comp
  let away_stats := _extract_record_data away_comp
  let h_ppg := home_stats.ppg
  let a_ppg := away_stats.ppg
  let h_games : ℚ := (home_stats.games : ℚ)
  let a_games : ℚ := (away_stats.games : ℚ)
  let h_strength := h_ppg - 0.5
  let a_strength := a_ppg - 0.5
  let base_each := total_prior / 2.0
  let lambda_home_raw := base_each * (1.0 + 0.9 * h_strength - 0.5 * a_strength + 0.08)
  let lambda_away_raw := base_each * (1.0 + 0.9 * a_strength - 0.5 * h_strength - 0.02)
  let lambda_home_raw := max 0.2 lambda_home_raw
  let lambda_away_raw := max 0.2 lambda_away_raw
  let prior_weight : ℚ := 5.0
  let lambda_home_post :=
    (lambda_home_raw * h_games + prior_lambda_home * prior_weight)
      / max (h_games + prior_weight) 1.0
  let lambda_away_post :=
    (lambda_away_raw * a_games + prior_lambda_away * prior_weight)
      / max (a_games + prior_weight) 1.0
  let lambda_home_post := max 0.2 (min 3.8 lambda_home_post)
  let lambda_away_post := max 0.2 (min 3.8 lambda_away_post)
  (lambda_home_post, lambda_away_post)

/- ===================================================================
   Soccer game projection — book_total fallback and totals market
   (src/app/services/soccer_game_projection.py).
   =================================================================== -/

/-- The _safe_float helper (soccer_game_projection.py lines 8-14): parse
an optional raw value, none on absence or failure. -/
def _safe_float (value : Option String) : Option ℚ :=
  value.bind (fun s => parseFloat? s.data)

/-- Recent-form score _form_score
(soccer_game_projection.py lines 39-67): the summary (or displayValue)
of the first record of type form/recent, scored W = +1, D = +0.4,
L = -1 per character; 0.0 when unavailable. -/
def formChars : List Char → ℚ
  | [] => 0.0
  | c :: rest =>
      (if c.toUpper = 'W' then (1.0 : ℚ)
       else if c.toUpper = 'D' then 0.4
       else if c.toUpper = 'L' then -1.0
       else 0) + formChars rest

/-- Form score of one competitor, see formChars. -/
def _form_score (competitor : Competitor) : ℚ :=
  match competitor.records.find? (fun rec =>
      rec.type == some "form" || rec.type == some "recent") with
  | none => 0.0
  | some rec =>
      let form_str :=
        match rec.summary with
        | some s => if s = "" then rec.displayValue else some s
        | none => rec.displayValue
      match form_str with
      | none => 0.0
      | some s => if s = "" then 0.0 else formChars s.data

/-- Totals-market slice of the output of compute_soccer_game_projection. -/
structure SoccerTotalsCore where
  book_total : ℚ
  model_total : ℚ
  edge_goals : ℚ
  margin_over_pct : ℚ
  pick_over : String
deriving Repr, DecidableEq

/-- Totals-market computation of compute_soccer_game_projection
(soccer_game_projection.py lines 97-139 and the returned book_total /
model_total / pick / edge fields).  The book total falls back to
line_over25 via Python's `or`, so a parsed over/under of exactly 0.0 is
replaced by the default just like an absent value. -/
def compute_soccer_game_projection_totals (overUnder : Option String)
    (home_comp away_comp : Competitor) (line_over25 : ℚ) : SoccerTotalsCore :=
  let home_form := _form_score home_comp
  let away_form := _form_score away_comp
  let book_total :=
    match _safe_float overUnder with
    | some v => if v = 0 then line_over25 else v
    | none => line_over25
  let form_delta := (home_form - away_form) * 0.10
  let model_total := book_total + form_delta
  let edge_goals := model_total - line_over25
  let margin_over_pct :=
    if line_over25 ≤ 0 then 0.0 else (edge_goals / line_over25) * 100.0
  let pick_over := if edge_goals > 0 then "OVER_2_5" else "UNDER_2_5"
  { book_total := book_total
    model_total := model_total
    edge_goals := edge_goals
    margin_over_pct := margin_over_pct
    pick_over := pick_over }

/- ===================================================================
   Poisson Outcome Engine (src/app/api/v1/routes_soccer.py,
   _poisson_pmf lines 87-91 and _poisson_score_matrix lines 222-275).
   math.exp forces this part of the model into ℝ.
   =================================================================== -/

/-- Poisson probability mass _poisson_pmf (routes_soccer.py lines 87-91).
The source's k < 0 guard is dead for the natural-number goal counts the
matrix iterates over, so k is taken in ℕ. -/
noncomputable def _poisson_pmf (k : ℕ) (lam : ℝ) : ℝ :=
  Real.exp (-lam) * lam ^ k / (Nat.factorial k : ℝ)

/-- Truncated per-side pmf list built by _poisson_score_matrix
(lines 230-239), as a function of the index 0..max_goals: the plain
Poisson mass below max_goals, and at max_goals the clipped remaining
tail 1 - sum of the earlier entries. -/
noncomputable def truncatedPmf (lam : ℝ) (max_goals : ℕ) (k : ℕ) : ℝ :=
  if k < max_goals then _poisson_pmf k lam
  else max 0 (1 - ∑ i ∈ Finset.range max_goals, _poisson_pmf i lam)

/-- Index grid of the joint score matrix: goal pairs (i, j) with
0 ≤ i, j ≤ max_goals. -/
def scoreGrid (max_goals : ℕ) : Finset (ℕ × ℕ) :=
  Finset.range (max_goals + 1) ×ˢ Finset.range (max_goals + 1)

/-- Accumulated home-win mass of the joint loop (lines 248-261), before
normalization. -/
noncomputable def rawHomeWin (lh la : ℝ) (max_goals : ℕ) : ℝ :=
  ∑ ij ∈ scoreGrid max_goals,
    if ij.2 < ij.1 then truncatedPmf lh max_goals ij.1 * truncatedPmf la max_goals ij.2
    else 0

/-- Accumulated draw mass of the joint loop, before normalization. -/
noncomputable def rawDraw (lh la : ℝ) (max_goals : ℕ) : ℝ :=
  ∑ ij ∈ scoreGrid max_goals,
    if ij.1 = ij.2 then truncatedPmf lh max_goals ij.1 * truncatedPmf la max_goals ij.2
    else 0

/-- Accumulated away-win mass of the joint loop, before normalization. -/
noncomputable def rawAwayWin (lh la : ℝ) (max_goals : ℕ) : ℝ :=
  ∑ ij ∈ scoreGrid max_goals,
    if ij.1 < ij.2 then truncatedPmf lh max_goals ij.1 * truncatedPmf la max_goals ij.2
    else 0

/-- Total-goals table p_total of the joint loop (lines 242-254): the mass
whose (tail-capped) goal total i + j is t; indices 0..2*max_goals. -/
noncomputable def rawTotal (lh la : ℝ) (max_goals t : ℕ) : ℝ :=
  ∑ ij ∈ scoreGrid max_goals,
    if min (ij.1 + ij.2) (max_goals * 2) = t then
      truncatedPmf lh max_goals ij.1 * truncatedPmf la max_goals ij.2
    else 0

/-- Result record of _poisson_score_matrix; p_total is the total-goals
table indexed 0..2*max_goals. -/
structure ScoreMatrix where
  p_total : ℕ → ℝ
  p_home_win : ℝ
  p_draw : ℝ
  p_away_win : ℝ

/-- The Poisson outcome engine _poisson_score_matrix
(routes_soccer.py lines 222-275): joint matrix of the two truncated
pmfs, total-goals table, and the 1X2 masses renormalized by their sum
when that sum is positive. -/
noncomputable def _poisson_score_matrix (lambda_home lambda_away : ℝ)
    (max_goals : ℕ) : ScoreMatrix :=
  let p_home_win := rawHomeWin lambda_home lambda_away max_goals
  let p_draw := rawDraw lambda_home lambda_away max_goals
  let p_away_win := rawAwayWin lambda_home lambda_away max_goals
  let s1x2 := p_home_win + p_draw + p_away_win
  if s1x2 > 0 then
    { p_total := rawTotal lambda_home lambda_away max_goals
      p_home_win := p_home_win / s1x2
      p_draw := p_draw / s1x2
      p_away_win := p_away_win / s1x2 }
  else
    { p_total := rawTotal lambda_home lambda_away max_goals
      p_home_win := p_home_win
      p_draw := p_draw
      p_away_win := p_away_win }

/- ===================================================================
   General lemmas about the embedded operations.
   =================================================================== -/

/-- The value-collection loop keeps exactly the first games_window
parseable values: it equals take games_window of the parseable
subsequence (for a positive window; the loop's break fires only after
an append). -/
theorem collectValues_eq_take (raws : List (Option ℚ)) (w : ℕ) (hw : 0 < w) :
    collectValues raws w = (raws.filterMap id).take w := by
  induction raws generalizing w with
  | nil => simp [collectValues]
  | cons r rest ih =>
      cases r with
      | none => simp [collectValues, ih w hw]
      | some v =>
          cases w with
          | zero => exact absurd hw (by simp)
          | succ n =>
              cases n with
              | zero => simp [collectValues]
              | succ m =>
                  have h2 : ¬ (m + 2 ≤ 1) := by omega
                  simp [collectValues, h2, ih (m + 1) (Nat.succ_pos m)]

/-- Clamping to [0.2, 3.8] via max/min always lands in [0.2, 3.8]. -/
theorem clamp_bounds (x : ℚ) :
    0.2 ≤ max 0.2 (min 3.8 x) ∧ max 0.2 (min 3.8 x) ≤ 3.8 :=
  ⟨le_max_left _ _, max_le (by norm_num) (min_le_left _ _)⟩

/-- A list whose elements all fail a predicate has no find? result. -/
theorem find?_of_forall_neg {α : Type} (p : α → Bool) (l : List α)
    (h : ∀ x ∈ l, p x = false) : l.find? p = none :=
  List.find?_eq_none.mpr (fun x hx => by simp [h x hx])

/-- find? on a decomposed list whose head part all fails the predicate
returns the first succeeding element. -/
theorem find?_append_first {α : Type} (p : α → Bool) (pre : List α) (st : α)
    (post : List α) (hpre : ∀ x ∈ pre, p x = false) (hst : p st = true) :
    (pre ++ st :: post).find? p = some st := by
  induction pre with
  | nil => simp [List.find?_cons, hst]
  | cons a t ih =>
      have ha : p a = false := hpre a (by simp)
      simp only [List.cons_append, List.find?_cons, ha]
      exact ih (fun x hx => hpre x (by simp [hx]))

/- ===================================================================
   Claim theorems.
   =================================================================== -/

/-- A conditional of the shape the spread-margin branch produces equals
the plain edge / 3 * 100 formula. -/
theorem spread_zero_margin_shape (e : ℚ) :
    (if e ≠ 0 then e / 3.0 * 100.0 else 0.0) = e / 3 * 100 := by
  by_cases h : e = 0
  · rw [if_neg (not_not_intro h), h]
    norm_num
  · rw [if_pos h]
    norm_num

/-- C2 counterexample: the manual projection endpoint does not refuse a
non-positive base projection; with base_projection = 0, no override and
book_line = 10 it returns a fully populated projection result computed
from that base (projection 0, edge -10, margin -100%, UNDER at
confidence Alta). -/
theorem manual_projection_no_refusal_cex :
    wspm_projection_route
        { book_line := 10, base_projection := 0, adj_matchup := 0,
          adj_volume := 0, adj_risk := 0, adj_tempo := 0,
          model_projection := none } =
      { net_adjust := 0, wspm_projection := 0, edge := -10, margin_pct := -100,
        safety_margin_value := 10, safety_margin_pct := 100, prob_cover := 70,
        direction := "UNDER", confidence := "Alta" } := by
  with_unfolding_all rfl

/-- C2 (amended): the automatic evaluation paths refuse whenever the
computed base projection is ≤ 0, regardless of the game total and book
line, and evaluate otherwise; the manual endpoint performs no such
check (see the counterexample). -/
theorem auto_projection_refuses_nonpositive_base
    (base : ℚ) (game_total : Option ℚ) (book_line : ℚ) :
    (base ≤ 0 → wspm_auto_projection_route base game_total book_line = none) ∧
    (0 < base →
      (wspm_auto_projection_route base game_total book_line).isSome = true) := by
  constructor
  · intro h
    simp [wspm_auto_projection_route, h]
  · intro h
    simp [wspm_auto_projection_route, not_le.mpr h]

/-- C2 witness: the refusal at base_projection = 0. -/
theorem auto_projection_refuses_nonpositive_base_witness :
    wspm_auto_projection_route 0 none 10 = none :=
  (auto_projection_refuses_nonpositive_base 0 none 10).1 (by norm_num)

/-- C3 counterexample: in the game projection, a zero book spread does
not give a zero spread margin: with recent averages 20/10 for the home
team and 10/10 for the away team and book_spread = 0, the model spread
is 5 and margin_spread_pct is 500/3 ≠ 0 (the code divides the edge by 3
points instead). -/
theorem spread_margin_zero_line_cex :
    (compute_game_projection_core 20 10 10 10 45 0).margin_spread_pct = 500 / 3 ∧
    (500 / 3 : ℚ) ≠ 0 := by
  constructor
  · with_unfolding_all rfl
  · norm_num

/-- C3 (amended): margin_pct = edge / abs(book_line) * 100 for a nonzero
book line and 0 for a zero book line in the player-prop model and for
the game-total market; for the spread market a zero book spread instead
normalizes the edge against 3 points: margin_spread_pct =
edge_spread / 3 * 100 (so it is 0 only when the edge itself is 0). -/
theorem margin_pct_formula (inp : WSPMInputCore)
    (home_pf home_pa away_pf away_pa book_total book_spread : ℚ) :
    ((inp.book_line ≠ 0 →
        (wspm_projection_route inp).margin_pct =
          (wspm_projection_route inp).edge / |inp.book_line| * 100) ∧
      (inp.book_line = 0 → (wspm_projection_route inp).margin_pct = 0)) ∧
    ((book_total ≠ 0 →
        (compute_game_projection_core home_pf home_pa away_pf away_pa
            book_total book_spread).margin_total_pct =
          (compute_game_projection_core home_pf home_pa away_pf away_pa
            book_total book_spread).edge_total / |book_total| * 100) ∧
      (book_total = 0 →
        (compute_game_projection_core home_pf home_pa away_pf away_pa
            book_total book_spread).margin_total_pct = 0) ∧
      (book_spread ≠ 0 →
        (compute_game_projection_core home_pf home_pa away_pf away_pa
            book_total book_spread).margin_spread_pct =
          (compute_game_projection_core home_pf home_pa away_pf away_pa
            book_total book_spread).edge_spread / |book_spread| * 100) ∧
      (book_spread = 0 →
        (compute_game_projection_core home_pf home_pa away_pf away_pa
            book_total book_spread).margin_spread_pct =
          (compute_game_projection_core home_pf home_pa away_pf away_pa
            book_total book_spread).edge_spread / 3 * 100)) := by
  refine ⟨⟨fun h => ?_, fun h => ?_⟩, fun h => ?_, fun h => ?_, fun h => ?_, fun h => ?_⟩
  · simp only [wspm_projection_route]
    rw [if_pos h]
    norm_num
  · simp only [wspm_projection_route]
    rw [if_neg (not_not_intro h)]
    norm_num
  · simp only [compute_game_projection_core]
    rw [if_pos h]
    norm_num
  · simp only [compute_game_projection_core]
    rw [if_neg (not_not_intro h)]
    norm_num
  · simp only [compute_game_projection_core]
    rw [if_pos h]
    norm_num
  · simp only [compute_game_projection_core]
    rw [if_neg (not_not_intro h)]
    exact spread_zero_margin_shape _

/-- C3 witness: the formula at a concrete nonzero book line. -/
theorem margin_pct_formula_witness :
    (wspm_projection_route
        { book_line := 10, base_projection := 12, adj_matchup := 0,
          adj_volume := 0, adj_risk := 0, adj_tempo := 0,
          model_projection := none }).margin_pct =
      (wspm_projection_route
        { book_line := 10, base_projection := 12, adj_matchup := 0,
          adj_volume := 0, adj_risk := 0, adj_tempo := 0,
          model_projection := none }).edge / |(10 : ℚ)| * 100 :=
  ((margin_pct_formula
      { book_line := 10, base_projection := 12, adj_matchup := 0,
        adj_volume := 0, adj_risk := 0, adj_tempo := 0,
        model_projection := none } 0 0 0 0 0 0).1).1 (by norm_num)

/-- C10: in the soccer game projection, a book over/under that parses to
exactly 0.0 is treated like an absent one: the returned book_total is
the default line_over25, because the fallback is Python's `or` on the
parsed float. -/
theorem soccer_book_total_zero_fallback (overUnder : Option String)
    (home_comp away_comp : Competitor) (line_over25 : ℚ)
    (h : _safe_float overUnder = some 0) :
    (compute_soccer_game_projection_totals overUnder home_comp away_comp
        line_over25).book_total = line_over25 ∧
    (compute_soccer_game_projection_totals none home_comp away_comp
        line_over25).book_total = line_over25 := by
  constructor
  · simp [compute_soccer_game_projection_totals, h]
  · simp [compute_soccer_game_projection_totals, _safe_float]

/-- C10 witness: the raw string "0" parses to 0.0 and the default 2.5 is
returned as book_total. -/
theorem soccer_book_total_zero_fallback_witness :
    (compute_soccer_game_projection_totals (some "0")
        { records := [] } { records := [] } 2.5).book_total = 2.5 :=
  (soccer_book_total_zero_fallback (some "0") { records := [] }
    { records := [] } 2.5 (by with_unfolding_all rfl)).1

/-- Strictness order of the confidence tiers: Baja (Low) < Media (Medium)
< Media-Alta (Medium-High) < Alta (High). -/
def confidenceRank (c : String) : ℕ :=
  if c = "Alta" then 3
  else if c = "Media-Alta" then 2
  else if c = "Media" then 1
  else 0

/-- C6: probability and confidence are deterministic, non-decreasing step
functions of safety_margin_pct, the player-prop route tables and the
game-projection helpers _prob_from_safety/_conf agree, and the tables
are: below 2 gives 52.0, [2,5) gives 55.0, [5,10) gives 60.0, [10,15)
gives 65.0, at least 15 gives 70.0; tiers Baja (Low) below 5, Media
(Medium) on [5,10), Media-Alta (Medium-High) on [10,15), Alta (High) at
15 and above. -/
theorem probability_confidence_monotone_step :
    (∀ p1 p2 : ℚ, p1 ≤ p2 →
      prob_cover_of_margin p1 ≤ prob_cover_of_margin p2 ∧
      confidenceRank (confidence_of_margin p1) ≤
        confidenceRank (confidence_of_margin p2)) ∧
    (∀ p : ℚ, _prob_from_safety p = prob_cover_of_margin p ∧
      _conf p = confidence_of_margin p) ∧
    (∀ p : ℚ,
      (p < 2 → prob_cover_of_margin p = 52) ∧
      (2 ≤ p → p < 5 → prob_cover_of_margin p = 55) ∧
      (5 ≤ p → p < 10 → prob_cover_of_margin p = 60) ∧
      (10 ≤ p → p < 15 → prob_cover_of_margin p = 65) ∧
      (15 ≤ p → prob_cover_of_margin p = 70)) ∧
    (∀ p : ℚ,
      (p < 5 → confidence_of_margin p = "Baja") ∧
      (5 ≤ p → p < 10 → confidence_of_margin p = "Media") ∧
      (10 ≤ p → p < 15 → confidence_of_margin p = "Media-Alta") ∧
      (15 ≤ p → confidence_of_margin p = "Alta")) := by
  refine ⟨fun p1 p2 h => ⟨?_, ?_⟩, fun p => ⟨?_, rfl⟩, fun p => ?_, fun p => ?_⟩
  · unfold prob_cover_of_margin
    split_ifs <;> linarith
  · unfold confidence_of_margin
    split_ifs <;> first | linarith | simp [confidenceRank]
  · unfold _prob_from_safety prob_cover_of_margin
    split_ifs <;> first | rfl | linarith
  · refine ⟨fun h => ?_, fun h1 h2 => ?_, fun h1 h2 => ?_, fun h1 h2 => ?_,
      fun h => ?_⟩ <;>
      (unfold prob_cover_of_margin; split_ifs <;> first | rfl | linarith)
  · refine ⟨fun h => ?_, fun h1 h2 => ?_, fun h1 h2 => ?_, fun h => ?_⟩ <;>
      (unfold confidence_of_margin; split_ifs <;> first | rfl | linarith)

/-- C6 witness: monotonicity between the concrete margins 1 and 7. -/
theorem probability_confidence_monotone_step_witness :
    prob_cover_of_margin 1 ≤ prob_cover_of_margin 7 ∧
    confidenceRank (confidence_of_margin 1) ≤
      confidenceRank (confidence_of_margin 7) :=
  probability_confidence_monotone_step.1 1 7 (by norm_num)

/-- C7: with no market total and both records yielding zero games played,
the Bayesian model returns exactly the half-split of the 2.6 league
prior, lambda_home = 1.43 and lambda_away = 1.17 (full shrinkage to the
prior); and for every input the returned posterior lambdas lie in
[0.2, 3.8]. -/
theorem bayesian_lambda_prior_and_clamp :
    (∀ home_comp away_comp : Competitor,
      (_extract_record_data home_comp).games = 0 →
      (_extract_record_data away_comp).games = 0 →
      _compute_bayesian_lambdas none home_comp away_comp = (1.43, 1.17)) ∧
    (∀ (book : Option ℚ) (home_comp away_comp : Competitor),
      0.2 ≤ (_compute_bayesian_lambdas book home_comp away_comp).1 ∧
      (_compute_bayesian_lambdas book home_comp away_comp).1 ≤ 3.8 ∧
      0.2 ≤ (_compute_bayesian_lambdas book home_comp away_comp).2 ∧
      (_compute_bayesian_lambdas book home_comp away_comp).2 ≤ 3.8) := by
  constructor
  · intro hc ac h1 h2
    simp only [_compute_bayesian_lambdas, h1, h2, Int.cast_zero, mul_zero,
      zero_add, add_zero, Prod.mk.injEq]
    norm_num [min_def, max_def]
  · intro book hc ac
    dsimp only [_compute_bayesian_lambdas]
    exact ⟨(clamp_bounds _).1, (clamp_bounds _).2,
      (clamp_bounds _).1, (clamp_bounds _).2⟩

/-- C7 witness: both teams with an explicit "0-0-0" total record and no
book total give exactly (1.43, 1.17). -/
theorem bayesian_lambda_prior_and_clamp_witness :
    _compute_bayesian_lambdas none
        { records := [{ type := some "total", summary := some "0-0-0",
                        displayValue := none }] }
        { records := [{ type := some "total", summary := some "0-0-0",
                        displayValue := none }] } = (1.43, 1.17) :=
  bayesian_lambda_prior_and_clamp.1 _ _
    (by with_unfolding_all rfl) (by with_unfolding_all rfl)

/-- C5: when the extracted series has at least window parseable values,
the rolling projection is the arithmetic mean of exactly the first
window most-recent values; appending older games beyond the window
never changes the result; an empty series gives 0.0; and the spec's
example series [30,25,20,15,10,5] with window 5 projects to 20.0. -/
theorem rolling_projection_windowing
    (raws older : List (Option ℚ)) (w : ℕ) (hw : 0 < w) :
    (w ≤ (raws.filterMap id).length →
      projectValues raws w = ((raws.filterMap id).take w).sum / (w : ℚ) ∧
      projectValues (raws ++ older) w = projectValues raws w) ∧
    (raws.filterMap id = [] → projectValues raws w = 0) ∧
    projectValues [some 30, some 25, some 20, some 15, some 10, some 5] 5 = 20 := by
  refine ⟨fun hlen => ⟨?_, ?_⟩, fun hE => ?_, by with_unfolding_all rfl⟩
  · have hcv := collectValues_eq_take raws w hw
    have hlt : ((raws.filterMap id).take w).length = w := by
      rw [List.length_take]
      omega
    have hne : ((raws.filterMap id).take w).isEmpty = false := by
      rcases h0 : (raws.filterMap id).take w with _ | _
      · rw [h0] at hlt
        simp at hlt
        omega
      · rfl
    simp only [projectValues, hcv, hne, Bool.false_eq_true, if_false, hlt]
  · have hcv := collectValues_eq_take raws w hw
    have hcv2 := collectValues_eq_take (raws ++ older) w hw
    have happ : ((raws ++ older).filterMap id).take w =
        (raws.filterMap id).take w := by
      rw [List.filterMap_append]
      exact List.take_append_of_le_length hlen
    simp only [projectValues, hcv, hcv2, happ]
  · have hcv := collectValues_eq_take raws w hw
    simp only [projectValues, hcv, hE, List.take_nil, List.isEmpty_nil, if_true]
    norm_num

/-- C5 witness: prepending the window-filling series to one more older
game leaves the projection unchanged, at the spec's example. -/
theorem rolling_projection_windowing_witness :
    projectValues ([some 30, some 25, some 20, some 15, some 10, some 5]
        ++ [some 1]) 5 =
      projectValues [some 30, some 25, some 20, some 15, some 10, some 5] 5 :=
  ((rolling_projection_windowing
      [some 30, some 25, some 20, some 15, some 10, some 5] [some 1] 5
      (by norm_num)).1 (by with_unfolding_all decide)).2

/-- C4 counterexample: in the streak detector's series extractor an
unparseable raw value is not skipped: "N/A" fails to parse, yet the
extracted series for the spec'd gamelog is [10, 0] — the unparseable
game contributes a zero observation. -/
theorem streak_series_zero_fill_cex :
    parseStat? "N/A" = none ∧
    _extract_stat_series
        { names := ["points"],
          seasonTypes := [{ splitType := some "2",
                            displayName := some "2024 Regular Season",
                            categories := [{ events := [{ stats := ["N/A"] },
                                                        { stats := ["10"] }] }] }] }
        ["points", "pts"] = [10, 0] := by
  constructor
  · with_unfolding_all rfl
  · with_unfolding_all rfl

/-- C4 (amended): the base-projection extraction loops skip a value that
fails to parse (the collected values are exactly the parseable ones, in
order, up to the window), but the streak detector's series extractor
substitutes 0.0 for an in-range raw value that fails to parse. -/
theorem extraction_skip_and_zero_fill :
    (∀ (raws : List (Option ℚ)) (w : ℕ), 0 < w →
      collectValues raws w = (raws.filterMap id).take w) ∧
    (∀ (g : Gamelog) (aliases : List String) (idx : ℕ),
      _find_stat_index g.names aliases = some idx →
      (_extract_regular_season_events g).isEmpty = false →
      _extract_stat_series g aliases =
        ((_extract_regular_season_events g).reverse).filterMap (fun ev =>
          (ev.stats.get? idx).map (fun raw => (parseStat? raw).getD 0.0))) := by
  constructor
  · exact collectValues_eq_take
  · intro g aliases idx hidx hne
    simp [_extract_stat_series, hidx, hne]

/-- C4 witness: the skip behaviour at a concrete two-entry list with one
unparseable value. -/
theorem extraction_skip_and_zero_fill_witness :
    collectValues [none, some 3] 2 =
      (([none, some 3] : List (Option ℚ)).filterMap id).take 2 :=
  extraction_skip_and_zero_fill.1 [none, some 3] 2 (by norm_num)

/-- C8: the streak run counts consecutive most-recent-first values meeting
the threshold and stops at the first value below it; the ladder scan
returns nothing exactly when no threshold's run reaches min_len, and a
reported record is the first (highest) threshold whose run reaches
min_len, with its exact run length; on the spec's example the report is
threshold 18 with streak 4. -/
theorem streak_detector_first_threshold :
    (∀ (series : List ℚ) (th : ℚ),
      _compute_streak series th =
        (series.takeWhile (fun v => decide (th ≤ v))).length) ∧
    (∀ (thresholds series : List ℚ) (m : ℕ),
      (streakLadder thresholds series m = none ↔
        ∀ th ∈ thresholds, _compute_streak series th < m)) ∧
    (∀ (thresholds series : List ℚ) (m : ℕ) (th : ℚ) (n : ℕ),
      streakLadder thresholds series m = some (th, n) →
      n = _compute_streak series th ∧ m ≤ n ∧
      ∃ pre post, thresholds = pre ++ th :: post ∧
        ∀ t ∈ pre, _compute_streak series t < m) ∧
    streakLadder [23, 18] [25, 22, 20, 18, 10] 2 = some (18, 4) := by
  refine ⟨?_, ?_, ?_, by with_unfolding_all rfl⟩
  · intro series th
    induction series with
    | nil => simp [_compute_streak]
    | cons v rest ih =>
        by_cases h : th ≤ v
        · simp [_compute_streak, h, ih, List.takeWhile_cons]
        · have h2 : ¬ v ≥ th := h
          simp [_compute_streak, h2, List.takeWhile_cons, h]
  · intro thresholds series m
    induction thresholds with
    | nil => simp [streakLadder]
    | cons t rest ih =>
        simp only [streakLadder, List.forall_mem_cons]
        split_ifs with hm
        · simp [Nat.not_lt.mpr hm]
        · simp [ih, Nat.not_le.mp hm]
  · intro thresholds series m th n
    induction thresholds with
    | nil => intro h; simp [streakLadder] at h
    | cons t rest ih =>
        intro h
        simp only [streakLadder] at h
        split_ifs at h with hm
        · rw [Option.some_inj, Prod.mk.injEq] at h
          obtain ⟨rfl, rfl⟩ := h
          exact ⟨rfl, hm, [], rest, rfl, by simp⟩
        · obtain ⟨hn, hmn, pre, post, hsplit, hpre⟩ := ih h
          refine ⟨hn, hmn, t :: pre, post, by rw [hsplit]; rfl, ?_⟩
          intro x hx
          rcases List.mem_cons.mp hx with rfl | hx2
          · exact Nat.not_le.mp hm
          · exact hpre x hx2

/-- C8 witness: the spec's example instance of the ladder scan. -/
theorem streak_detector_first_threshold_witness :
    streakLadder [23, 18] [25, 22, 20, 18, 10] 2 = some (18, 4) :=
  streak_detector_first_threshold.2.2.2

/-- C9 counterexample: a gamelog whose only segment is a postseason one
(splitType "3", no Regular Season name): the NFL indexed-gamelog
extractor returns the empty list instead of falling back to merging all
segments — the merged segments hold one event the NFL path drops. -/
theorem nfl_extractor_no_merge_fallback_cex :
    (∀ st ∈ (⟨["points"],
        [⟨some "3", some "2024 Postseason", [⟨[⟨["7"]⟩]⟩]⟩]⟩ :
        Gamelog).seasonTypes, isRegularSegment st = false) ∧
    _get_regular_season_events_from_indexed_gamelog
        ⟨["points"], [⟨some "3", some "2024 Postseason", [⟨[⟨["7"]⟩]⟩]⟩]⟩ = [] ∧
    mergeAllSegments
        ⟨["points"], [⟨some "3", some "2024 Postseason", [⟨[⟨["7"]⟩]⟩]⟩]⟩ =
      [⟨["7"]⟩] := by
  refine ⟨by with_unfolding_all decide, by with_unfolding_all rfl,
    by with_unfolding_all rfl⟩

/-- C9 (amended): both extractors restrict to the first regular-season
segment (splitType "2" or a display name ending in "Regular Season")
when one exists; when none exists, the NBA extractor falls back to
merging the events of all segments, while the NFL extractor returns the
empty list (its caller then degrades to the legacy-format extraction
instead). -/
theorem regular_season_extraction_behavior :
    (∀ (g : Gamelog) (pre : List SeasonSegment) (st : SeasonSegment)
        (post : List SeasonSegment),
      g.seasonTypes = pre ++ st :: post →
      (∀ st' ∈ pre, isRegularSegment st' = false) →
      isRegularSegment st = true →
      _extract_regular_season_events g = segmentEvents st ∧
      _get_regular_season_events_from_indexed_gamelog g = segmentEvents st) ∧
    (∀ g : Gamelog, (∀ st ∈ g.seasonTypes, isRegularSegment st = false) →
      _extract_regular_season_events g = mergeAllSegments g ∧
      _get_regular_season_events_from_indexed_gamelog g = []) := by
  constructor
  · intro g pre st post hsplit hpre hst
    have hf : g.seasonTypes.find? isRegularSegment = some st := by
      rw [hsplit]
      exact find?_append_first _ pre st post hpre hst
    constructor <;> simp [_extract_regular_season_events,
      _get_regular_season_events_from_indexed_gamelog, hf]
  · intro g hall
    have hf : g.seasonTypes.find? isRegularSegment = none :=
      find?_of_forall_neg _ _ hall
    constructor <;> simp [_extract_regular_season_events,
      _get_regular_season_events_from_indexed_gamelog, hf]

/-- C9 witness: the no-regular-segment case at the concrete postseason
gamelog. -/
theorem regular_season_extraction_behavior_witness :
    _extract_regular_season_events
        ⟨["points"], [⟨some "3", some "2024 Postseason", [⟨[⟨["8"]⟩]⟩]⟩]⟩ =
      mergeAllSegments
        ⟨["points"], [⟨some "3", some "2024 Postseason", [⟨[⟨["8"]⟩]⟩]⟩]⟩ ∧
    _get_regular_season_events_from_indexed_gamelog
        ⟨["points"], [⟨some "3", some "2024 Postseason", [⟨[⟨["8"]⟩]⟩]⟩]⟩ = [] :=
  regular_season_extraction_behavior.2 _ (by with_unfolding_all decide)

/-- Poisson masses are nonnegative for a nonnegative rate. -/
theorem _poisson_pmf_nonneg (k : ℕ) (lam : ℝ) (h : 0 ≤ lam) :
    0 ≤ _poisson_pmf k lam :=
  div_nonneg (mul_nonneg (le_of_lt (Real.exp_pos _)) (pow_nonneg h k))
    (Nat.cast_nonneg _)

/-- A partial sum of the Poisson pmf never exceeds 1 (it is a partial sum
of exp(-lam) times the exponential series of lam). -/
theorem poisson_partial_sum_le_one (lam : ℝ) (h : 0 ≤ lam) (mg : ℕ) :
    ∑ i ∈ Finset.range mg, _poisson_pmf i lam ≤ 1 := by
  have h1 : ∑ i ∈ Finset.range mg, _poisson_pmf i lam
      = Real.exp (-lam) * ∑ i ∈ Finset.range mg, lam ^ i / (Nat.factorial i : ℝ) := by
    rw [Finset.mul_sum]
    refine Finset.sum_congr rfl fun i _ => ?_
    unfold _poisson_pmf
    ring
  rw [h1]
  calc Real.exp (-lam) * ∑ i ∈ Finset.range mg, lam ^ i / (Nat.factorial i : ℝ)
      ≤ Real.exp (-lam) * Real.exp lam :=
        mul_le_mul_of_nonneg_left (Real.sum_le_exp_of_nonneg h mg)
          (le_of_lt (Real.exp_pos _))
    _ = 1 := by rw [← Real.exp_add]; simp

/-- The truncated per-side pmf is a genuine probability vector: the final
bucket absorbs exactly the remaining tail, so the entries over
0..max_goals sum to 1. -/
theorem truncatedPmf_sum (lam : ℝ) (h : 0 ≤ lam) (mg : ℕ) :
    ∑ k ∈ Finset.range (mg + 1), truncatedPmf lam mg k = 1 := by
  rw [Finset.sum_range_succ]
  have hlast : truncatedPmf lam mg mg
      = 1 - ∑ i ∈ Finset.range mg, _poisson_pmf i lam := by
    unfold truncatedPmf
    rw [if_neg (lt_irrefl mg)]
    exact max_eq_right (by linarith [poisson_partial_sum_le_one lam h mg])
  have hinit : ∑ k ∈ Finset.range mg, truncatedPmf lam mg k
      = ∑ k ∈ Finset.range mg, _poisson_pmf k lam :=
    Finset.sum_congr rfl fun k hk => by
      unfold truncatedPmf
      rw [if_pos (Finset.mem_range.mp hk)]
  rw [hlast, hinit]
  ring

/-- The joint matrix built as the outer product of two vectors sums to the
product of the vector sums. -/
theorem scoreGrid_sum_mul (f g : ℕ → ℝ) (mg : ℕ) :
    ∑ ij ∈ scoreGrid mg, f ij.1 * g ij.2
      = (∑ i ∈ Finset.range (mg + 1), f i) * (∑ j ∈ Finset.range (mg + 1), g j) := by
  rw [scoreGrid, Finset.sum_product]
  exact (Finset.sum_mul_sum _ _ _ _).symm

/-- The 1X2 accumulators partition the joint matrix: their sum is the
total joint mass. -/
theorem raw1x2_sum (lh la : ℝ) (mg : ℕ) :
    rawHomeWin lh la mg + rawDraw lh la mg + rawAwayWin lh la mg
      = ∑ ij ∈ scoreGrid mg, truncatedPmf lh mg ij.1 * truncatedPmf la mg ij.2 := by
  unfold rawHomeWin rawDraw rawAwayWin
  rw [← Finset.sum_add_distrib, ← Finset.sum_add_distrib]
  refine Finset.sum_congr rfl fun ij _ => ?_
  rcases lt_trichotomy ij.1 ij.2 with h | h | h
  · rw [if_neg (by omega), if_neg (by omega), if_pos h]
    ring
  · rw [if_neg (by omega), if_pos h, if_neg (by omega)]
    ring
  · rw [if_pos h, if_neg (by omega), if_neg (by omega)]
    ring

/-- The total-goals table partitions the joint matrix: its entries over
0..2*max_goals sum to the total joint mass. -/
theorem rawTotal_sum (lh la : ℝ) (mg : ℕ) :
    ∑ t ∈ Finset.range (mg * 2 + 1), rawTotal lh la mg t
      = ∑ ij ∈ scoreGrid mg, truncatedPmf lh mg ij.1 * truncatedPmf la mg ij.2 := by
  unfold rawTotal
  rw [Finset.sum_comm]
  refine Finset.sum_congr rfl fun ij _ => ?_
  rw [Finset.sum_ite_eq]
  rw [if_pos (Finset.mem_range.mpr (by omega))]

/-- C1: for goal rates in [0.2, 3.8] (any nonnegative rates suffice), the
Poisson outcome engine's 1X2 probabilities sum to exactly 1, the
total-goals table p_total over 0..20 sums to exactly 1, and the final
bucket holds exactly the remaining tail mass 1 minus the sum of the
earlier pmf values (the max-with-0 clip never engages). -/
theorem poisson_outcome_mass_conservation (lh la : ℝ)
    (h1 : 0.2 ≤ lh) (h2 : lh ≤ 3.8) (h3 : 0.2 ≤ la) (h4 : la ≤ 3.8) :
    (_poisson_score_matrix lh la 10).p_home_win
        + (_poisson_score_matrix lh la 10).p_draw
        + (_poisson_score_matrix lh la 10).p_away_win = 1 ∧
    ∑ t ∈ Finset.range 21, (_poisson_score_matrix lh la 10).p_total t = 1 ∧
    truncatedPmf lh 10 10 = 1 - ∑ i ∈ Finset.range 10, _poisson_pmf i lh := by
  have hlh : (0 : ℝ) ≤ lh := by linarith
  have hla : (0 : ℝ) ≤ la := by linarith
  have hgrid : ∑ ij ∈ scoreGrid 10,
      truncatedPmf lh 10 ij.1 * truncatedPmf la 10 ij.2 = 1 := by
    rw [scoreGrid_sum_mul, truncatedPmf_sum lh hlh 10, truncatedPmf_sum la hla 10]
    norm_num
  have hsum : rawHomeWin lh la 10 + rawDraw lh la 10 + rawAwayWin lh la 10 = 1 :=
    (raw1x2_sum lh la 10).trans hgrid
  refine ⟨?_, ?_, ?_⟩
  · simp only [_poisson_score_matrix, hsum]
    rw [if_pos (by norm_num : (1 : ℝ) > 0)]
    simp only [div_one]
    exact hsum
  · simp only [_poisson_score_matrix, hsum]
    rw [if_pos (by norm_num : (1 : ℝ) > 0)]
    rw [show (21 : ℕ) = 10 * 2 + 1 from rfl]
    exact (rawTotal_sum lh la 10).trans hgrid
  · unfold truncatedPmf
    rw [if_neg (lt_irrefl 10)]
    exact max_eq_right (by linarith [poisson_partial_sum_le_one lh hlh 10])

/-- C1 witness: mass conservation at the concrete rates (1, 1). -/
theorem poisson_outcome_mass_conservation_witness :
    ((0.2 : ℝ) ≤ 1 ∧ (1 : ℝ) ≤ 3.8) ∧
    ((_poisson_score_matrix 1 1 10).p_home_win
        + (_poisson_score_matrix 1 1 10).p_draw
        + (_poisson_score_matrix 1 1 10).p_away_win = 1 ∧
      ∑ t ∈ Finset.range 21, (_poisson_score_matrix 1 1 10).p_total t = 1 ∧
      truncatedPmf 1 10 10 = 1 - ∑ i ∈ Finset.range 10, _poisson_pmf i 1) :=
  ⟨⟨by norm_num, by norm_num⟩,
    poisson_outcome_mass_conservation 1 1 (by norm_num) (by norm_num)
      (by norm_num) (by norm_num)⟩
